import Mathlib

/-!
Shallow embedding of `src/daily_quote_bot.py` (class `DailyQuoteBot`).

Conventions of the embedding:
* Python strings become Lean `String`s (sequences of Unicode scalar values, matching
  Python `str` indexing/length for the inputs considered here); the case functions
  `str.lower` / `str.isupper` are modelled at ASCII precision, which coincides with
  Python on the ASCII data the program manipulates.
* `hashlib.md5(...).hexdigest()` is embedded as a full executable MD5 over the
  UTF-8 bytes of the input (matching `str.encode()`).
* I/O boundaries (HTTP fetch, Telegram POST, the tracking file) become explicit
  parameters: the fetch is an oracle `List (Option (List String))` giving the
  flattened text lines of each attempt (`None` = raised `RequestException`),
  delivery success is an oracle `String → Bool`, randomness is an index parameter,
  and the tracking file is a `FileState` (absent / unreadable-or-unparsable /
  parsed JSON value).
All recursion is structural so every definition evaluates in the kernel.
-/

set_option maxRecDepth 10000

namespace DailyQuoteBot

/-! ## Python string-operation models -/

/-- Does the character list `s` start with the character list `t`? -/
def listStarts : List Char → List Char → Bool
  | _, [] => true
  | [], _ :: _ => false
  | a :: as, b :: bs => a == b && listStarts as bs

/-- Substring search over character lists (Python `t in s` on strings). -/
def hasSubAux (t : List Char) : List Char → Bool
  | [] => listStarts [] t
  | c :: rest => listStarts (c :: rest) t || hasSubAux t rest

/-- Python `sub in s` for strings. -/
def strContains (s sub : String) : Bool := hasSubAux sub.data s.data

/-- Python `s.startswith(t)`. -/
def pyStartsWith (s t : String) : Bool := listStarts s.data t.data

/-- Python `s.lower()` (ASCII model; `Char.toLower` lowers exactly the ASCII letters). -/
def pyLower (s : String) : String := String.mk (s.data.map Char.toLower)

/-- Python `s.isupper()` (ASCII model: at least one letter and no lowercase letter). -/
def pyIsUpper (s : String) : Bool :=
  s.data.any (fun c => c.isAlpha) && s.data.all (fun c => !(c.isLower))

/-- Accumulating splitter for Python `s.split()`: runs of non-whitespace become
words, whitespace is discarded (`acc` holds the current word reversed). -/
def wordsAux : List Char → List Char → List String
  | [], acc => if acc.isEmpty then [] else [String.mk acc.reverse]
  | c :: rest, acc =>
    if c.isWhitespace then
      if acc.isEmpty then wordsAux rest []
      else String.mk acc.reverse :: wordsAux rest []
    else wordsAux rest (c :: acc)

/-- Python `s.split()` with no argument: whitespace-separated words, no empties. -/
def pyWords (s : String) : List String := wordsAux s.data []

/-- Splitter for Python `s.split('.')`: empty pieces are kept. -/
def splitDotAux : List Char → List Char → List String
  | [], acc => [String.mk acc.reverse]
  | c :: rest, acc =>
    if c == '.' then String.mk acc.reverse :: splitDotAux rest []
    else splitDotAux rest (c :: acc)

/-- Python `s.split('.')`. -/
def pySplitDot (s : String) : List String := splitDotAux s.data []

/-- Python `s.strip()`: whitespace removed from both ends (ASCII whitespace). -/
def pyStrip (s : String) : String :=
  String.mk
    (((s.data.dropWhile (fun c => c.isWhitespace)).reverse.dropWhile
        (fun c => c.isWhitespace)).reverse)

/-- Python `sep.join(xs)`. -/
def joinSep (sep : String) : List String → String
  | [] => ""
  | x :: rest => rest.foldl (fun acc y => acc ++ sep ++ y) x

/-- Python slice `s[:n]` for a nonnegative `n`. -/
def strTake (n : Nat) (s : String) : String := String.mk (s.data.take n)

/-- Does `s` end with `t`? -/
def strEndsWith (s t : String) : Bool :=
  s.data.reverse.take t.data.length == t.data.reverse

/-! ## MD5 (`hashlib.md5(x.encode()).hexdigest()`), executable over `Nat` bytes -/

/-- UTF-8 encoding of one character (`str.encode()` in the source). -/
def utf8Char (c : Char) : List Nat :=
  let n := c.toNat
  if n < 128 then [n]
  else if n < 2048 then [192 + n / 64, 128 + n % 64]
  else if n < 65536 then [224 + n / 4096, 128 + (n / 64) % 64, 128 + n % 64]
  else [240 + n / 262144, 128 + (n / 4096) % 64, 128 + (n / 64) % 64, 128 + n % 64]

/-- UTF-8 bytes of a string. -/
def utf8Bytes (s : String) : List Nat := (s.data.map utf8Char).flatten

/-- 2^32, the word modulus of MD5. -/
def w32 : Nat := 4294967296

/-- Rotate a 32-bit word left by `c` bits. -/
def rotl32 (x c : Nat) : Nat := ((x <<< c) % w32) ||| (x >>> (32 - c))

/-- The MD5 sine-derived constant table. -/
def md5K : List Nat :=
  [0xd76aa478, 0xe8c7b756, 0x242070db, 0xc1bdceee,
   0xf57c0faf, 0x4787c62a, 0xa8304613, 0xfd469501,
   0x698098d8, 0x8b44f7af, 0xffff5bb1, 0x895cd7be,
   0x6b901122, 0xfd987193, 0xa679438e, 0x49b40821,
   0xf61e2562, 0xc040b340, 0x265e5a51, 0xe9b6c7aa,
   0xd62f105d, 0x02441453, 0xd8a1e681, 0xe7d3fbc8,
   0x21e1cde6, 0xc33707d6, 0xf4d50d87, 0x455a14ed,
   0xa9e3e905, 0xfcefa3f8, 0x676f02d9, 0x8d2a4c8a,
   0xfffa3942, 0x8771f681, 0x6d9d6122, 0xfde5380c,
   0xa4beea44, 0x4bdecfa9, 0xf6bb4b60, 0xbebfbc70,
   0x289b7ec6, 0xeaa127fa, 0xd4ef3085, 0x04881d05,
   0xd9d4d039, 0xe6db99e5, 0x1fa27cf8, 0xc4ac5665,
   0xf4292244, 0x432aff97, 0xab9423a7, 0xfc93a039,
   0x655b59c3, 0x8f0ccc92, 0xffeff47d, 0x85845dd1,
   0x6fa87e4f, 0xfe2ce6e0, 0xa3014314, 0x4e0811a1,
   0xf7537e82, 0xbd3af235, 0x2ad7d2bb, 0xeb86d391]

/-- The MD5 per-round shift amounts. -/
def md5S : List Nat :=
  [7, 12, 17, 22, 7, 12, 17, 22, 7, 12, 17, 22, 7, 12, 17, 22,
   5, 9, 14, 20, 5, 9, 14, 20, 5, 9, 14, 20, 5, 9, 14, 20,
   4, 11, 16, 23, 4, 11, 16, 23, 4, 11, 16, 23, 4, 11, 16, 23,
   6, 10, 15, 21, 6, 10, 15, 21, 6, 10, 15, 21, 6, 10, 15, 21]

/-- The MD5 round function applied at step `i`. -/
def md5F (i b c d : Nat) : Nat :=
  if i < 16 then (b &&& c) ||| ((b ^^^ 4294967295) &&& d)
  else if i < 32 then (d &&& b) ||| ((d ^^^ 4294967295) &&& c)
  else if i < 48 then b ^^^ c ^^^ d
  else c ^^^ (b ||| (d ^^^ 4294967295))

/-- The MD5 message-word index at step `i`. -/
def md5G (i : Nat) : Nat :=
  if i < 16 then i
  else if i < 32 then (5 * i + 1) % 16
  else if i < 48 then (3 * i + 5) % 16
  else (7 * i) % 16

/-- One MD5 step on the state `(a, b, c, d)`. -/
def md5Step (m : List Nat) (st : Nat × Nat × Nat × Nat) (i : Nat) : Nat × Nat × Nat × Nat :=
  let a := st.1
  let b := st.2.1
  let c := st.2.2.1
  let d := st.2.2.2
  let f := (md5F i b c d + a + md5K.getD i 0 + m.getD (md5G i) 0) % w32
  (d, (b + rotl32 f (md5S.getD i 0)) % w32, b, c)

/-- Decode a 64-byte chunk into 16 little-endian 32-bit words. -/
def md5Words (chunk : List Nat) : List Nat :=
  (List.range 16).map (fun j =>
    chunk.getD (4 * j) 0 + 256 * chunk.getD (4 * j + 1) 0 +
      65536 * chunk.getD (4 * j + 2) 0 + 16777216 * chunk.getD (4 * j + 3) 0)

/-- Process one 64-byte chunk. -/
def md5Chunk (st : Nat × Nat × Nat × Nat) (chunk : List Nat) : Nat × Nat × Nat × Nat :=
  let m := md5Words chunk
  let r := (List.range 64).foldl (md5Step m) st
  ((st.1 + r.1) % w32, (st.2.1 + r.2.1) % w32, (st.2.2.1 + r.2.2.1) % w32,
    (st.2.2.2 + r.2.2.2) % w32)

/-- Process `n` chunks of the padded message starting at byte offset `off`. -/
def md5Loop (padded : List Nat) : Nat → Nat → Nat × Nat × Nat × Nat → Nat × Nat × Nat × Nat
  | 0, _, st => st
  | n + 1, off, st => md5Loop padded n (off + 64) (md5Chunk st ((padded.drop off).take 64))

/-- MD5 padding: `0x80`, zeros to 56 mod 64, then the bit length little-endian in 8 bytes. -/
def md5Pad (msg : List Nat) : List Nat :=
  let len := msg.length
  let z := (120 - ((len + 1) % 64)) % 64
  msg ++ [128] ++ List.replicate z 0 ++
    (List.range 8).map (fun i => ((len * 8) / 2 ^ (8 * i)) % 256)

/-- Lowercase hexadecimal digit. -/
def hexDigit (n : Nat) : Char := Char.ofNat (if n < 10 then 48 + n else 87 + n)

/-- Two lowercase hex digits of a byte. -/
def byteHex (b : Nat) : List Char := [hexDigit (b / 16), hexDigit (b % 16)]

/-- Little-endian hex rendering of a 32-bit word. -/
def wordLEHex (x : Nat) : List Char :=
  byteHex (x % 256) ++ byteHex ((x / 256) % 256) ++
    byteHex ((x / 65536) % 256) ++ byteHex ((x / 16777216) % 256)

/-- MD5 hex digest of a byte list. -/
def md5hex (msg : List Nat) : String :=
  let padded := md5Pad msg
  let st := md5Loop padded (padded.length / 64) 0 (1732584193, 4023233417, 2562383102, 271733878)
  String.mk (wordLEHex st.1 ++ wordLEHex st.2.1 ++ wordLEHex st.2.2.1 ++ wordLEHex st.2.2.2)

/-- `hashlib.md5(s.encode()).hexdigest()`. -/
def md5str (s : String) : String := md5hex (utf8Bytes s)

/-! ## Data model -/

/-- The quote dictionary built by `fetch_daily_quote` / `get_fallback_quote`:
keys `date`, `title`, `content`, `author`, `fetch_date`. -/
structure QuoteData where
  date : String
  title : String
  content : String
  author : String
  fetch_date : String
deriving DecidableEq, Repr

/-- The string hashed by `get_quote_hash`:
`f"{quote_data['date']}|{quote_data['title']}|{quote_data['content'][:200]}"`. -/
def quote_identifier (q : QuoteData) : String :=
  q.date ++ "|" ++ q.title ++ "|" ++ strTake 200 q.content

/-- `get_quote_hash`: MD5 hex digest of the identifier string. -/
def get_quote_hash (q : QuoteData) : String := md5str (quote_identifier q)

/-- Modelled from the spec: the fingerprint formula as §4.4 states it,
`hash(fetch_date || "|" || title || "|" || body[:200])`, for comparison with
`get_quote_hash`, which the source builds from the `date` label instead. -/
def spec_fingerprint (q : QuoteData) : String :=
  md5str (q.fetch_date ++ "|" ++ q.title ++ "|" ++ strTake 200 q.content)

/-- Sample record: date label differs from `sampleQuoteB`, all other fields equal. -/
def sampleQuoteA : QuoteData :=
  { date := "Monday, June 2, 2025", title := "T", content := "C", author := "A",
    fetch_date := "2025-06-02" }

/-- Sample record: date label differs from `sampleQuoteA`, all other fields equal. -/
def sampleQuoteB : QuoteData :=
  { date := "Tuesday, June 3, 2025", title := "T", content := "C", author := "A",
    fetch_date := "2025-06-02" }

/-- Sample record: equal to `sampleQuoteD` except in author and fetch_date. -/
def sampleQuoteC : QuoteData :=
  { date := "D", title := "T", content := "C", author := "A1", fetch_date := "F1" }

/-- Sample record: equal to `sampleQuoteC` except in author and fetch_date. -/
def sampleQuoteD : QuoteData :=
  { date := "D", title := "T", content := "C", author := "A2", fetch_date := "F2" }

/-- Demo flattened page lines for the date/title scan: first weekday name at index 1,
first acceptable title two lines later. -/
def c8Lines : List String :=
  ["Intro text", "On Monday we begin", "abc", "A fine short headline", "rest"]

/-- The example-scenario flattened page lines of the spec: date line, title line,
two body sentences, author line. -/
def c9Lines : List String :=
  ["Monday, June 2, 2025", "Stay the Course",
   "Keep moving forward with steady effort.",
   "Every single step you take builds real momentum.",
   "Ralph Marston"]

/-! ## Tracking file model (`load_last_quote_data` / `save_quote_data`) -/

/-- JSON values, the possible results of `json.load`. -/
inductive Json where
  | null
  | bool (b : Bool)
  | num (n : Int)
  | str (s : String)
  | arr (xs : List Json)
  | obj (fields : List (String × Json))

/-- The tracking file on disk: absent (`os.path.exists` false), present but
unreadable or unparsable (`open`/`json.load` raises, caught by the source), or
parsed to a JSON value. -/
inductive FileState where
  | absent
  | unparsable
  | parsed (j : Json)

/-- `load_last_quote_data`: `None` on a missing or unreadable file, and on a
parsed value that is falsy (`not data`: empty dict) or not a dict. -/
def load_last_quote_data : FileState → Option (List (String × Json))
  | FileState.absent => none
  | FileState.unparsable => none
  | FileState.parsed j =>
    match j with
    | Json.obj fields => if fields.isEmpty then none else some fields
    | _ => none

/-- Python `dict.get key`: `json.load` keeps the last duplicate key, so look the
key up from the right. -/
def lookupJson (fields : List (String × Json)) (key : String) : Option Json :=
  (fields.reverse.find? (fun kv => kv.1 == key)).map (fun kv => kv.2)

/-- Python `last_hash == current_hash` where `current_hash` is a `str`: a JSON
value equals a string only when it is that string. -/
def jsonEqStr (j : Json) (s : String) : Bool :=
  match j with
  | Json.str t => t == s
  | _ => false

/-- `save_quote_data`: the JSON object written to the tracking file on a
successful send. -/
def save_quote_data (q : QuoteData) (quote_hash nowIso : String) : Json :=
  Json.obj
    [("hash", Json.str quote_hash),
     ("date", Json.str q.date),
     ("title", Json.str q.title),
     ("sent_at", Json.str nowIso),
     ("fetch_date", Json.str q.fetch_date),
     ("content_preview",
       Json.str (if 100 < q.content.length then strTake 100 q.content ++ "..." else q.content))]

/-- `is_new_quote`: returns `(is_new, current_hash)`. -/
def is_new_quote (file : FileState) (q : QuoteData) : Bool × String :=
  let current_hash := get_quote_hash q
  match load_last_quote_data file with
  | none => (true, current_hash)
  | some last_data =>
    let last_hash := (lookupJson last_data "hash").getD (Json.str "")
    if jsonEqStr last_hash current_hash then (false, current_hash)
    else (true, current_hash)

/-! ## Quote extraction (`fetch_daily_quote`) -/

/-- The English weekday names scanned for in the date line. -/
def weekday_names : List String :=
  ["Monday", "Tuesday", "Wednesday", "Thursday", "Friday", "Saturday", "Sunday"]

/-- `any(day in line for day in [...])`. -/
def hasWeekday (line : String) : Bool :=
  weekday_names.any (fun d => strContains line d)

/-- The `skip_word` blacklist of the title scan. -/
def title_skip_words : List String :=
  ["copyright", "ralph marston", "greatday", "http", "www"]

/-- The title filter of the primary scan: length strictly between 5 and 100 and
no blacklisted substring in the lowercased line. -/
def isGoodTitle (t : String) : Bool :=
  decide (5 < t.length) && decide (t.length < 100) &&
    !(title_skip_words.any (fun w => strContains (pyLower t) w))

/-- `for j in range(i + 1, min(i + 4, len(lines)))`: scan `n` lines starting at
index `j`, returning the first good title, else `""`. -/
def titleScanFrom (lines : List String) : Nat → Nat → String
  | _, 0 => ""
  | j, n + 1 =>
    let t := lines.getD j ""
    if isGoodTitle t then t else titleScanFrom lines (j + 1) n

/-- The date/title loop of `fetch_daily_quote`: walk `rest` (which is
`lines[i:]`), stop at the first line containing a weekday name, and scan the
next `min(i + 4, len(lines)) - (i + 1)` lines for a title. -/
def dateScanFrom (lines : List String) : Nat → List String → String × String
  | _, [] => ("", "")
  | i, line :: rest =>
    if hasWeekday line then
      (line, titleScanFrom lines (i + 1) (min (i + 4) lines.length - (i + 1)))
    else dateScanFrom lines (i + 1) rest

/-- Result of the primary date/title scan: `(date_str, title)`, `""` when not found. -/
def findDateTitle (lines : List String) : String × String := dateScanFrom lines 0 lines

/-- The footer/navigation stop-word blacklist of the content loop. -/
def content_stop_words : List String :=
  ["copyright", "previous", "permission", "subscribe", "email",
   "greatday.com", "make a plan", "weekly focus", "archives",
   "home", "contact", "privacy", "terms", "navigate"]

/-- The author stop condition of the content loop. -/
def isAuthorStop (line : String) : Bool :=
  pyStartsWith line "Ralph Marston" || line == "Ralph Marston" ||
    strContains line "‚Äî Ralph"

/-- The footer stop condition of the content loop. -/
def isFooterStop (line : String) : Bool :=
  content_stop_words.any (fun w => strContains (pyLower line) w)

/-- The body-line filter of the content loop. -/
def isContentLine (line : String) : Bool :=
  line != "" && decide (15 < line.length) &&
    !(pyStartsWith line "http") && !(pyStartsWith line "‚Äî") &&
    !(strContains line "¬©") && !(pyIsUpper line) &&
    decide (3 < (pyWords line).length)

/-- The content loop of `fetch_daily_quote`: once the title line is passed
(`started`), collect body lines until an author or footer stop; returns the
collected lines and the (possibly updated) author. `title_found` always equals
`content_started` in the source, so one flag suffices. -/
def contentScan (title author : String) : List String → Bool → List String × String
  | [], _ => ([], author)
  | line :: rest, started =>
    if !started then
      if line == title && title != "" then contentScan title author rest true
      else contentScan title author rest false
    else if isAuthorStop line then
      ([], if author == "Ralph Marston" then line else author)
    else if isFooterStop line then ([], author)
    else if isContentLine line then
      let r := contentScan title author rest true
      (line :: r.1, r.2)
    else contentScan title author rest true

/-- The `fallback_quotes` pool of `get_fallback_quote`, as (title, content, author). -/
def fallback_quotes : List (String × String × String) :=
  [("Persistence Pays",
    "Success is not final, failure is not fatal: it is the courage to continue that counts. Keep pushing forward, even when the path seems difficult. Each challenge you overcome makes you stronger and more resilient.",
    "Daily Motivator"),
   ("New Beginnings",
    "Every day is a fresh start. Yesterday's mistakes don't define today's possibilities. Embrace the opportunity to grow and improve. Your potential is limitless when you approach each day with renewed energy.",
    "Daily Motivator"),
   ("Inner Strength",
    "You are stronger than you think and more capable than you realize. Trust in your abilities and take confident steps toward your goals. The power to change your life lies within you.",
    "Daily Motivator"),
   ("Focus Forward",
    "Focus on progress, not perfection. Every small step forward is a victory worth celebrating. Consistency in small actions leads to extraordinary results over time.",
    "Daily Motivator")]

/-- `get_fallback_quote`: `random.choice` is modelled by the index `rand % 4`;
`todayFmt` is `datetime.now().strftime("%A, %B %d, %Y")` and `todayIso` is
`str(date.today())`. -/
def get_fallback_quote (rand : Nat) (todayFmt todayIso : String) : QuoteData :=
  let sel := fallback_quotes.getD (rand % fallback_quotes.length) ("", "", "")
  { date := todayFmt, title := sel.1, content := sel.2.1, author := sel.2.2,
    fetch_date := todayIso }

/-- The parsing body of `fetch_daily_quote` applied to the flattened non-empty
stripped text lines of the page, including the fallback parsing pass and the
final `get_fallback_quote` delegation. -/
def extractQuote (lines : List String) (todayFmt todayIso : String) (rand : Nat) : QuoteData :=
  let dt := findDateTitle lines
  let ca := contentScan dt.2 "Ralph Marston" lines false
  let step2 :=
    if dt.1 == "" || dt.2 == "" || ca.1.isEmpty then
      let all_text := joinSep " " lines
      let paragraphs :=
        ((pySplitDot all_text).map pyStrip).filter (fun p => decide (50 < p.length))
      let content2 :=
        match paragraphs with
        | [] => ca.1
        | p :: _ => [p ++ "."]
      (if dt.1 == "" then todayFmt else dt.1,
       if dt.2 == "" then "Daily Motivation" else dt.2,
       content2)
    else (dt.1, dt.2, ca.1)
  if step2.2.2.isEmpty then get_fallback_quote rand todayFmt todayIso
  else
    { date := step2.1, title := step2.2.1,
      content := joinSep "\n\n" step2.2.2,
      author := ca.2, fetch_date := todayIso }

/-- The retry loop of `fetch_daily_quote`: up to 3 attempts, first success wins;
`none` models a `RequestException` raised after the last attempt. -/
def fetchRetry (attempts : List (Option (List String))) : Option (List String) :=
  (attempts.take 3).findSome? id

/-- `fetch_daily_quote`: a raised `RequestException` (all attempts failed) is
caught and answered with `get_fallback_quote`; otherwise the page is parsed.
The oracle `attempts` gives each attempt's flattened text lines. -/
def fetch_daily_quote (attempts : List (Option (List String))) (rand : Nat)
    (todayFmt todayIso : String) : QuoteData :=
  match fetchRetry attempts with
  | none => get_fallback_quote rand todayFmt todayIso
  | some lines => extractQuote lines todayFmt todayIso rand

/-! ## Formatting and delivery -/

/-- `format_message`: the fixed Telegram HTML template. -/
def format_message (q : QuoteData) : String :=
  "üåü <b>Daily Motivator</b>\n\n" ++ "üìÖ <i>" ++ q.date ++ "</i>\n\n" ++
    "<b>" ++ q.title ++ "</b>\n\n" ++ q.content ++ "\n\n" ++
    "‚Äî <i>" ++ q.author ++ "</i>"

/-- The truncation marker appended by `send_to_telegram`. -/
def truncation_marker : String := "...\n\n[Truncated]"

/-- The oversize handling of `send_to_telegram`:
`if len(message) > 4000: message = message[:4000 - 10] + marker`. -/
def truncateMessage (message : String) : String :=
  if 4000 < message.length then strTake (4000 - 10) message ++ truncation_marker
  else message

/-- The form fields `send_to_telegram` posts to the `sendMessage` endpoint. -/
structure TelegramRequest where
  chat_id : String
  text : String
  parse_mode : String
  disable_web_page_preview : Bool
deriving DecidableEq, Repr

/-- The request `send_to_telegram` builds for a message. -/
def send_to_telegram_request (chat_id message : String) : TelegramRequest :=
  { chat_id := chat_id, text := truncateMessage message, parse_mode := "HTML",
    disable_web_page_preview := true }

/-! ## The orchestrator (`run`) -/

/-- The apology text of the fetch-failed branch of `run`. -/
def error_fetch_msg : String :=
  "‚ùå Sorry, couldn't fetch today's quote. Please try again later."

/-- Observable outcome of a run: the returned status string, the messages passed
to `send_to_telegram`, and the tracking file afterwards. -/
structure RunOutcome where
  result : String
  sent : List String
  file : FileState

/-- The body of `run` after the fetch: `none` models a falsy `quote_data`
(the apology branch); `sendOk` tells whether `send_to_telegram` reports success
for a given message; `nowIso` is `datetime.now().isoformat()`. -/
def runCore (quote_data : Option QuoteData) (nowIso : String) (sendOk : String → Bool)
    (file0 : FileState) : RunOutcome :=
  match quote_data with
  | none =>
    { result := "Failed to fetch quote", sent := [error_fetch_msg], file := file0 }
  | some q =>
    let r := is_new_quote file0 q
    if !r.1 then
      { result := "No new quote - skipped", sent := [], file := file0 }
    else
      let message := format_message q
      if sendOk message then
        { result := "New quote sent successfully", sent := [message],
          file := FileState.parsed (save_quote_data q r.2 nowIso) }
      else
        { result := "Failed to send quote", sent := [message], file := file0 }

/-- `run`: `fetch_daily_quote` always returns a non-empty dict (truthy), so the
fetched quote is passed to the core as `some`. -/
def run (attempts : List (Option (List String))) (rand : Nat)
    (todayFmt todayIso nowIso : String) (sendOk : String → Bool)
    (file0 : FileState) : RunOutcome :=
  runCore (some (fetch_daily_quote attempts rand todayFmt todayIso)) nowIso sendOk file0

/-! ## Helper lemmas -/

theorem strAppendData (s t : String) : (s ++ t).data = s.data ++ t.data := by
  cases s
  cases t
  rfl

theorem strLengthData (s : String) : s.length = s.data.length := by
  cases s
  rfl

theorem truncate_length_of_long (m : String) (h : 4000 < m.length) :
    (truncateMessage m).length = 4006 := by
  unfold truncateMessage
  rw [if_pos h]
  rw [strLengthData] at h ⊢
  rw [strAppendData]
  have hm : truncation_marker.data.length = 16 := rfl
  simp only [strTake, List.length_append, List.length_take, hm]
  omega

theorem strEndsWith_append (s t : String) : strEndsWith (s ++ t) t = true := by
  unfold strEndsWith
  rw [strAppendData, List.reverse_append]
  rw [List.take_left' (by rw [List.length_reverse])]
  simp

theorem truncate_short (m : String) (h : m.length ≤ 4000) : truncateMessage m = m := by
  unfold truncateMessage
  rw [if_neg (by omega)]

/-! ## Claim theorems -/

theorem send_text_eq (chat m : String) :
    (send_to_telegram_request chat m).text = truncateMessage m := rfl

/-- Claim C1, counterexample: a 4001-character message is truncated to a text of
length 4006, not at most 4000 — the 16-character marker is appended after cutting
to 3990, overshooting the stated 4000 bound. -/
theorem c1_counterexample :
    4000 < (String.mk (List.replicate 4001 'a')).length ∧
    ¬ ((send_to_telegram_request "chat" (String.mk (List.replicate 4001 'a'))).text.length
        ≤ 4000) := by
  have hlen : (String.mk (List.replicate 4001 'a')).length = 4001 := by
    rw [strLengthData]
    exact List.length_replicate 4001 'a'
  have hbig : 4000 < (String.mk (List.replicate 4001 'a')).length :=
    lt_of_lt_of_eq (by decide) hlen.symm
  have ht := truncate_length_of_long (String.mk (List.replicate 4001 'a')) hbig
  refine ⟨hbig, ?_⟩
  rw [send_text_eq, ht]
  decide

/-- Claim C1 (amended): a formatted message longer than 4000 characters is sent as
a text of length exactly 4006 (3990 retained characters plus the 16-character
truncation marker), ending with the truncation marker; a message of length at most
4000 is sent unchanged. -/
theorem c1_thm (chat m : String) :
    (4000 < m.length →
      (send_to_telegram_request chat m).text.length = 4006 ∧
      strEndsWith (send_to_telegram_request chat m).text truncation_marker = true) ∧
    (m.length ≤ 4000 → (send_to_telegram_request chat m).text = m) := by
  constructor
  · intro h
    refine ⟨truncate_length_of_long m h, ?_⟩
    show strEndsWith (truncateMessage m) truncation_marker = true
    unfold truncateMessage
    rw [if_pos h]
    exact strEndsWith_append _ _
  · intro h
    exact truncate_short m h

/-- Claim C1 witness: the amended statement evaluated on a 4001-character message
and on a short message. -/
theorem c1_witness :
    4000 < (String.mk (List.replicate 4001 'a')).length ∧
    (send_to_telegram_request "chat" (String.mk (List.replicate 4001 'a'))).text.length
      = 4006 ∧
    (send_to_telegram_request "chat" "hi").text = "hi" := by
  have hlen : (String.mk (List.replicate 4001 'a')).length = 4001 := by
    rw [strLengthData]
    exact List.length_replicate 4001 'a'
  have hbig : 4000 < (String.mk (List.replicate 4001 'a')).length :=
    lt_of_lt_of_eq (by decide) hlen.symm
  exact ⟨hbig,
    ((c1_thm "chat" (String.mk (List.replicate 4001 'a'))).1 hbig).1,
    (c1_thm "chat" "hi").2 (by decide)⟩

/-- Claim C10: a message of length at most 4000 is posted unchanged, and the
other request fields (chat id, parse mode, preview flag) do not depend on the
message content. -/
theorem c10_thm (chat m : String) (h : m.length ≤ 4000) :
    (send_to_telegram_request chat m).text = m ∧
    (send_to_telegram_request chat m).chat_id = chat ∧
    (send_to_telegram_request chat m).parse_mode = "HTML" ∧
    (send_to_telegram_request chat m).disable_web_page_preview = true := by
  exact ⟨truncate_short m h, rfl, rfl, rfl⟩

/-- Claim C10 witness: the statement evaluated on a short concrete message. -/
theorem c10_witness :
    ("ok" : String).length ≤ 4000 ∧
    ((send_to_telegram_request "chat" "ok").text = "ok" ∧
     (send_to_telegram_request "chat" "ok").chat_id = "chat" ∧
     (send_to_telegram_request "chat" "ok").parse_mode = "HTML" ∧
     (send_to_telegram_request "chat" "ok").disable_web_page_preview = true) :=
  ⟨by decide, c10_thm "chat" "ok" (by decide)⟩

/-- Claim C2, counterexample: two records identical in (fetch_date, title, first
200 characters of body) but with different date labels get different fingerprints,
and the computed fingerprint differs from the digest of the fetch_date-based
string the spec describes — `get_quote_hash` hashes the `date` label, not
`fetch_date`. -/
theorem c2_counterexample :
    sampleQuoteA.fetch_date = sampleQuoteB.fetch_date ∧
    sampleQuoteA.title = sampleQuoteB.title ∧
    strTake 200 sampleQuoteA.content = strTake 200 sampleQuoteB.content ∧
    get_quote_hash sampleQuoteA ≠ get_quote_hash sampleQuoteB ∧
    get_quote_hash sampleQuoteA ≠ spec_fingerprint sampleQuoteA := by
  refine ⟨rfl, rfl, rfl, by decide, by decide⟩

/-- Claim C2 (amended): the fingerprint is the digest of
date_label || "|" || title || "|" || first 200 characters of body, so records
identical in (date_label, title, first 200 characters of body) get identical
fingerprints, whatever their fetch_date and author. -/
theorem c2_thm (q1 q2 : QuoteData) (hd : q1.date = q2.date)
    (ht : q1.title = q2.title)
    (hc : strTake 200 q1.content = strTake 200 q2.content) :
    get_quote_hash q1 = md5str (q1.date ++ "|" ++ q1.title ++ "|" ++ strTake 200 q1.content) ∧
    get_quote_hash q1 = get_quote_hash q2 := by
  constructor
  · rfl
  · unfold get_quote_hash quote_identifier
    rw [hd, ht, hc]

/-- Claim C2 witness: two records equal in (date label, title, body) but
differing in fetch_date and author hash identically. -/
theorem c2_witness :
    sampleQuoteC.date = sampleQuoteD.date ∧
    sampleQuoteC.fetch_date ≠ sampleQuoteD.fetch_date ∧
    get_quote_hash sampleQuoteC = get_quote_hash sampleQuoteD :=
  ⟨rfl, by decide, (c2_thm sampleQuoteC sampleQuoteD rfl rfl rfl).2⟩

/-- Claim C3: when the delivery client reports failure, the run leaves the
tracking file exactly as it was — the record is only written after a successful
send. -/
theorem c3_thm (attempts : List (Option (List String))) (rand : Nat)
    (todayFmt todayIso nowIso : String) (sendOk : String → Bool) (file0 : FileState)
    (h : ∀ m, sendOk m = false) :
    (run attempts rand todayFmt todayIso nowIso sendOk file0).file = file0 := by
  unfold run runCore
  cases hn : (is_new_quote file0 (fetch_daily_quote attempts rand todayFmt todayIso)).1 with
  | false => simp [hn]
  | true => simp [hn, h (format_message (fetch_daily_quote attempts rand todayFmt todayIso))]

/-- Claim C3 witness: a failing send on a concrete run leaves the concrete
tracking file untouched. -/
theorem c3_witness :
    (run [none] 0 "F" "I" "N" (fun _ => false) (FileState.parsed (Json.str "x"))).file
      = FileState.parsed (Json.str "x") :=
  c3_thm [none] 0 "F" "I" "N" (fun _ => false) (FileState.parsed (Json.str "x"))
    (fun _ => rfl)

/-- Claim C4: when the stored record parses to an object whose hash field equals
the fetched quote's fingerprint, the run skips: no message is handed to the
delivery client and the tracking file is unchanged. -/
theorem c4_thm (attempts : List (Option (List String))) (rand : Nat)
    (todayFmt todayIso nowIso : String) (sendOk : String → Bool) (file0 : FileState)
    (fields : List (String × Json)) (F : String)
    (hload : load_last_quote_data file0 = some fields)
    (hhash : lookupJson fields "hash" = some (Json.str F))
    (hF : get_quote_hash (fetch_daily_quote attempts rand todayFmt todayIso) = F) :
    run attempts rand todayFmt todayIso nowIso sendOk file0 =
      { result := "No new quote - skipped", sent := [], file := file0 } := by
  have hnew : is_new_quote file0 (fetch_daily_quote attempts rand todayFmt todayIso)
      = (false, F) := by
    unfold is_new_quote
    rw [hload]
    simp [hhash, jsonEqStr, hF]
  unfold run runCore
  simp [hnew]

/-- Claim C4 witness: a concrete run whose stored hash matches the fetched
quote's fingerprint skips, sends nothing, and keeps the file. -/
theorem c4_witness :
    run [none] 0 "F" "I" "N" (fun _ => true)
      (FileState.parsed (Json.obj
        [("hash", Json.str (get_quote_hash (fetch_daily_quote [none] 0 "F" "I")))])) =
      { result := "No new quote - skipped", sent := [],
        file := FileState.parsed (Json.obj
          [("hash", Json.str (get_quote_hash (fetch_daily_quote [none] 0 "F" "I")))]) } :=
  c4_thm [none] 0 "F" "I" "N" (fun _ => true)
    (FileState.parsed (Json.obj
      [("hash", Json.str (get_quote_hash (fetch_daily_quote [none] 0 "F" "I")))]))
    [("hash", Json.str (get_quote_hash (fetch_daily_quote [none] 0 "F" "I")))]
    (get_quote_hash (fetch_daily_quote [none] 0 "F" "I")) rfl rfl rfl

/-- Claim C5: an absent, unreadable, non-object or empty-object tracking file
loads as `none` (no error path exists: the model is total), and any quote is then
classified as new. -/
theorem c5_thm (file0 : FileState) (q : QuoteData)
    (h : ∀ fields, file0 = FileState.parsed (Json.obj fields) → fields = []) :
    load_last_quote_data file0 = none ∧
    is_new_quote file0 q = (true, get_quote_hash q) := by
  have hl : load_last_quote_data file0 = none := by
    cases file0 with
    | absent => rfl
    | unparsable => rfl
    | parsed j =>
      cases j with
      | obj fields =>
        have hf := h fields rfl
        subst hf
        rfl
      | null => rfl
      | bool b => rfl
      | num n => rfl
      | str s => rfl
      | arr xs => rfl
  refine ⟨hl, ?_⟩
  unfold is_new_quote
  rw [hl]

/-- Claim C5 witness: the empty JSON object loads as no-prior-record and a
concrete quote is classified as new. -/
theorem c5_witness :
    load_last_quote_data (FileState.parsed (Json.obj [])) = none ∧
    is_new_quote (FileState.parsed (Json.obj []))
        { date := "D", title := "T", content := "C", author := "A", fetch_date := "F" }
      = (true, get_quote_hash
          { date := "D", title := "T", content := "C", author := "A", fetch_date := "F" }) :=
  c5_thm (FileState.parsed (Json.obj []))
    { date := "D", title := "T", content := "C", author := "A", fetch_date := "F" }
    (fun fields hf => by
      injection hf with h1
      injection h1 with h2
      exact h2.symm)

theorem findSome_id_none {α : Type} :
    ∀ l : List (Option α), (∀ x ∈ l, x = none) → l.findSome? id = none
  | [], _ => rfl
  | a :: t, h => by
    have ha : a = none := h a (List.mem_cons_self a t)
    subst ha
    have ih := findSome_id_none t (fun x hx => h x (List.mem_cons_of_mem _ hx))
    simpa [List.findSome?_cons] using ih

theorem fetchRetry_none (attempts : List (Option (List String)))
    (h : ∀ x ∈ attempts, x = none) : fetchRetry attempts = none := by
  unfold fetchRetry
  exact findSome_id_none _ (fun x hx => h x (List.take_subset 3 attempts hx))

theorem fetch_fail_fallback (attempts : List (Option (List String))) (rand : Nat)
    (todayFmt todayIso : String) (h : ∀ x ∈ attempts, x = none) :
    fetch_daily_quote attempts rand todayFmt todayIso
      = get_fallback_quote rand todayFmt todayIso := by
  unfold fetch_daily_quote
  rw [fetchRetry_none attempts h]

theorem get_fallback_sel (rand : Nat) :
    fallback_quotes.getD (rand % fallback_quotes.length) ("", "", "") ∈ fallback_quotes ∧
    (fallback_quotes.getD (rand % fallback_quotes.length) ("", "", "")).1 ≠ "" ∧
    (fallback_quotes.getD (rand % fallback_quotes.length) ("", "", "")).2.1 ≠ "" ∧
    (fallback_quotes.getD (rand % fallback_quotes.length) ("", "", "")).2.2 ≠ "" := by
  rw [show fallback_quotes.length = 4 from rfl]
  have h4 : rand % 4 = 0 ∨ rand % 4 = 1 ∨ rand % 4 = 2 ∨ rand % 4 = 3 := by omega
  rcases h4 with h4 | h4 | h4 | h4 <;> rw [h4] <;>
    exact ⟨by decide, by decide, by decide, by decide⟩

theorem get_fallback_quote_spec (rand : Nat) (todayFmt todayIso : String) :
    (get_fallback_quote rand todayFmt todayIso).title ≠ "" ∧
    (get_fallback_quote rand todayFmt todayIso).content ≠ "" ∧
    (get_fallback_quote rand todayFmt todayIso).author ≠ "" ∧
    ((get_fallback_quote rand todayFmt todayIso).title,
      (get_fallback_quote rand todayFmt todayIso).content,
      (get_fallback_quote rand todayFmt todayIso).author) ∈ fallback_quotes ∧
    (get_fallback_quote rand todayFmt todayIso).date = todayFmt ∧
    (get_fallback_quote rand todayFmt todayIso).fetch_date = todayIso := by
  have hsel := get_fallback_sel rand
  exact ⟨hsel.2.1, hsel.2.2.1, hsel.2.2.2, hsel.1, rfl, rfl⟩

/-- Claim C6: when all fetch attempts fail, the pipeline returns the fallback
quote: title, content and author are non-empty and drawn from the fixed pool,
the date label is today's formatted date and fetch_date is today's ISO date. -/
theorem c6_thm (attempts : List (Option (List String))) (rand : Nat)
    (todayFmt todayIso : String) (h : ∀ x ∈ attempts, x = none) :
    fetch_daily_quote attempts rand todayFmt todayIso
      = get_fallback_quote rand todayFmt todayIso ∧
    (fetch_daily_quote attempts rand todayFmt todayIso).title ≠ "" ∧
    (fetch_daily_quote attempts rand todayFmt todayIso).content ≠ "" ∧
    (fetch_daily_quote attempts rand todayFmt todayIso).author ≠ "" ∧
    ((fetch_daily_quote attempts rand todayFmt todayIso).title,
      (fetch_daily_quote attempts rand todayFmt todayIso).content,
      (fetch_daily_quote attempts rand todayFmt todayIso).author) ∈ fallback_quotes ∧
    (fetch_daily_quote attempts rand todayFmt todayIso).date = todayFmt ∧
    (fetch_daily_quote attempts rand todayFmt todayIso).fetch_date = todayIso := by
  have hf := fetch_fail_fallback attempts rand todayFmt todayIso h
  rw [hf]
  exact ⟨rfl, get_fallback_quote_spec rand todayFmt todayIso⟩

/-- Claim C6 witness: three failed attempts on a concrete run produce a concrete
fallback record with non-empty fields from the pool. -/
theorem c6_witness :
    (∀ x ∈ ([none, none, none] : List (Option (List String))), x = none) ∧
    (fetch_daily_quote [none, none, none] 7 "F" "I"
        = get_fallback_quote 7 "F" "I" ∧
      (fetch_daily_quote [none, none, none] 7 "F" "I").title ≠ "" ∧
      (fetch_daily_quote [none, none, none] 7 "F" "I").content ≠ "" ∧
      (fetch_daily_quote [none, none, none] 7 "F" "I").author ≠ "" ∧
      ((fetch_daily_quote [none, none, none] 7 "F" "I").title,
        (fetch_daily_quote [none, none, none] 7 "F" "I").content,
        (fetch_daily_quote [none, none, none] 7 "F" "I").author) ∈ fallback_quotes ∧
      (fetch_daily_quote [none, none, none] 7 "F" "I").date = "F" ∧
      (fetch_daily_quote [none, none, none] 7 "F" "I").fetch_date = "I") :=
  ⟨by decide, c6_thm [none, none, none] 7 "F" "I" (by decide)⟩

theorem format_message_head (q : QuoteData) :
    (format_message q).data.head? = some 'ü' := by
  obtain ⟨⟨d⟩, ⟨t⟩, ⟨c⟩, ⟨a⟩, ⟨f⟩⟩ := q
  rfl

theorem format_message_ne_error (q : QuoteData) : format_message q ≠ error_fetch_msg := by
  intro h
  have h2 : some 'ü' = error_fetch_msg.data.head? := by
    rw [← format_message_head q, h]
  exact absurd h2 (by decide)

/-- Claim C7, counterexample: a run whose three fetch attempts all fail does not
send the apology message — the fetch always yields a (fallback) quote, so the
apology branch of `run` is not taken and the run does not report a fetch
failure. -/
theorem c7_counterexample :
    (∀ x ∈ ([none, none, none] : List (Option (List String))), x = none) ∧
    (run [none, none, none] 0 "F" "I" "N" (fun _ => true) FileState.absent).result ≠
      "Failed to fetch quote" ∧
    error_fetch_msg ∉
      (run [none, none, none] 0 "F" "I" "N" (fun _ => true) FileState.absent).sent := by
  refine ⟨by decide, by decide, by decide⟩

/-- Claim C7 (amended): when the fetch entirely fails no apology is sent — the
fetch step always returns a quote (the fallback), so the run proceeds through the
normal pipeline, never reports a fetch failure, and the only message it can hand
to the delivery client is the formatted fallback quote; the apology branch is
unreachable. -/
theorem c7_thm (attempts : List (Option (List String))) (rand : Nat)
    (todayFmt todayIso nowIso : String) (sendOk : String → Bool) (file0 : FileState)
    (h : ∀ x ∈ attempts, x = none) :
    (run attempts rand todayFmt todayIso nowIso sendOk file0).result ≠
      "Failed to fetch quote" ∧
    error_fetch_msg ∉ (run attempts rand todayFmt todayIso nowIso sendOk file0).sent ∧
    ∀ m ∈ (run attempts rand todayFmt todayIso nowIso sendOk file0).sent,
      m = format_message (get_fallback_quote rand todayFmt todayIso) := by
  have hf := fetch_fail_fallback attempts rand todayFmt todayIso h
  cases hn : (is_new_quote file0 (get_fallback_quote rand todayFmt todayIso)).1 with
  | false =>
    have hres : (run attempts rand todayFmt todayIso nowIso sendOk file0).result
        = "No new quote - skipped" := by
      unfold run runCore
      rw [hf]
      simp [hn]
    have hsent : (run attempts rand todayFmt todayIso nowIso sendOk file0).sent = [] := by
      unfold run runCore
      rw [hf]
      simp [hn]
    rw [hres, hsent]
    exact ⟨by decide, List.not_mem_nil _, fun m hm => absurd hm (List.not_mem_nil m)⟩
  | true =>
    cases hs : sendOk (format_message (get_fallback_quote rand todayFmt todayIso)) with
    | true =>
      have hres : (run attempts rand todayFmt todayIso nowIso sendOk file0).result
          = "New quote sent successfully" := by
        unfold run runCore
        rw [hf]
        simp [hn, hs]
      have hsent : (run attempts rand todayFmt todayIso nowIso sendOk file0).sent
          = [format_message (get_fallback_quote rand todayFmt todayIso)] := by
        unfold run runCore
        rw [hf]
        simp [hn, hs]
      rw [hres, hsent]
      refine ⟨by decide, ?_, ?_⟩
      · intro hm
        rw [List.mem_singleton] at hm
        exact format_message_ne_error _ hm.symm
      · intro m hm
        rw [List.mem_singleton] at hm
        exact hm
    | false =>
      have hres : (run attempts rand todayFmt todayIso nowIso sendOk file0).result
          = "Failed to send quote" := by
        unfold run runCore
        rw [hf]
        simp [hn, hs]
      have hsent : (run attempts rand todayFmt todayIso nowIso sendOk file0).sent
          = [format_message (get_fallback_quote rand todayFmt todayIso)] := by
        unfold run runCore
        rw [hf]
        simp [hn, hs]
      rw [hres, hsent]
      refine ⟨by decide, ?_, ?_⟩
      · intro hm
        rw [List.mem_singleton] at hm
        exact format_message_ne_error _ hm.symm
      · intro m hm
        rw [List.mem_singleton] at hm
        exact hm

/-- Claim C7 witness: the amended statement evaluated on a concrete run whose
three attempts all fail. -/
theorem c7_witness :
    (run [none, none, none] 3 "F" "I" "N" (fun _ => true) FileState.absent).result ≠
      "Failed to fetch quote" ∧
    error_fetch_msg ∉
      (run [none, none, none] 3 "F" "I" "N" (fun _ => true) FileState.absent).sent :=
  ⟨(c7_thm [none, none, none] 3 "F" "I" "N" (fun _ => true) FileState.absent
      (by decide)).1,
   (c7_thm [none, none, none] 3 "F" "I" "N" (fun _ => true) FileState.absent
      (by decide)).2.1⟩

theorem titleScanFrom_eq (lines : List String) :
    ∀ n j : Nat,
      titleScanFrom lines j n = (((lines.drop j).take n).find? isGoodTitle).getD "" := by
  intro n
  induction n with
  | zero =>
    intro j
    simp [titleScanFrom]
  | succ n ih =>
    intro j
    by_cases hj : j < lines.length
    · have hdrop : lines.drop j = lines[j] :: lines.drop (j + 1) :=
        List.drop_eq_getElem_cons hj
      have hget : lines.getD j "" = lines[j] := by
        rw [List.getD_eq_getElem?_getD, List.getElem?_eq_getElem hj]
        rfl
      rw [hdrop, List.take_succ_cons]
      simp only [titleScanFrom]
      rw [hget]
      by_cases hg : isGoodTitle lines[j] = true
      · rw [if_pos hg, List.find?_cons_of_pos _ hg]
        rfl
      · rw [if_neg hg, List.find?_cons_of_neg _ hg]
        exact ih (j + 1)
    · have hlel : lines.length ≤ j := Nat.le_of_not_lt hj
      have hdrop : lines.drop j = [] := List.drop_eq_nil_of_le hlel
      have hdrop2 : lines.drop (j + 1) = [] := List.drop_eq_nil_of_le (by omega)
      have hget : lines.getD j "" = "" := by
        rw [List.getD_eq_getElem?_getD, List.getElem?_eq_none hlel]
        rfl
      simp only [titleScanFrom]
      rw [hget]
      rw [if_neg (by rw [show isGoodTitle "" = false from rfl]; exact Bool.false_ne_true)]
      rw [ih (j + 1), hdrop, hdrop2]
      simp

theorem dateScanFrom_eq (lines : List String) (i : Nat) (hi : i < lines.length)
    (hw : hasWeekday (lines.getD i "") = true)
    (hmin : ∀ k, k < i → hasWeekday (lines.getD k "") = false) :
    ∀ d j, j ≤ i → i - j = d →
      dateScanFrom lines j (lines.drop j) =
        (lines.getD i "",
          titleScanFrom lines (i + 1) (min (i + 4) lines.length - (i + 1))) := by
  intro d
  induction d with
  | zero =>
    intro j hj hd
    have hji : j = i := by omega
    subst hji
    have hdrop : lines.drop j = lines[j] :: lines.drop (j + 1) :=
      List.drop_eq_getElem_cons hi
    have hget : lines.getD j "" = lines[j] := by
      rw [List.getD_eq_getElem?_getD, List.getElem?_eq_getElem hi]
      rfl
    have hw' : hasWeekday lines[j] = true := by rw [← hget]; exact hw
    rw [hdrop]
    simp only [dateScanFrom]
    rw [if_pos hw', hget]
  | succ d ih =>
    intro j hj hd
    have hji : j < i := by omega
    have hjlen : j < lines.length := by omega
    have hdrop : lines.drop j = lines[j] :: lines.drop (j + 1) :=
      List.drop_eq_getElem_cons hjlen
    have hget : lines.getD j "" = lines[j] := by
      rw [List.getD_eq_getElem?_getD, List.getElem?_eq_getElem hjlen]
      rfl
    have hwj : hasWeekday lines[j] = false := by rw [← hget]; exact hmin j hji
    rw [hdrop]
    simp only [dateScanFrom]
    rw [if_neg (by rw [hwj]; exact Bool.false_ne_true)]
    exact ih (j + 1) (by omega) (by omega)

/-- Claim C8: at the first line containing a weekday name, the scan takes that
line as the date label and selects as title the first of the following at most 3
lines passing the title filter (length 6–99 inclusive, no blacklisted substring),
selecting nothing (empty title) if none of those lines passes. -/
theorem c8_thm (lines : List String) (i : Nat) (hi : i < lines.length)
    (hw : hasWeekday (lines.getD i "") = true)
    (hmin : ∀ k, k < i → hasWeekday (lines.getD k "") = false) :
    (findDateTitle lines).1 = lines.getD i "" ∧
    (findDateTitle lines).2 = (((lines.drop (i + 1)).take 3).find? isGoodTitle).getD "" ∧
    ((∀ t ∈ (lines.drop (i + 1)).take 3, isGoodTitle t = false) →
      (findDateTitle lines).2 = "") ∧
    ∀ t : String,
      isGoodTitle t =
        (decide (6 ≤ t.length) && decide (t.length ≤ 99) &&
          !(title_skip_words.any (fun w => strContains (pyLower t) w))) := by
  have hmain := dateScanFrom_eq lines i hi hw hmin i 0 (Nat.zero_le i) (by omega)
  rw [List.drop_zero] at hmain
  have hfdt : findDateTitle lines =
      (lines.getD i "",
        titleScanFrom lines (i + 1) (min (i + 4) lines.length - (i + 1))) := by
    unfold findDateTitle
    exact hmain
  have hlen : (lines.drop (i + 1)).length = lines.length - (i + 1) := by simp
  have htake : (lines.drop (i + 1)).take (min (i + 4) lines.length - (i + 1))
      = (lines.drop (i + 1)).take 3 := by
    rcases le_or_lt (i + 4) lines.length with hle | hlt
    · rw [Nat.min_eq_left hle]
      congr 1
      omega
    · rw [Nat.min_eq_right (by omega)]
      rw [List.take_of_length_le (by omega), List.take_of_length_le (by omega)]
  have hscan := titleScanFrom_eq lines (min (i + 4) lines.length - (i + 1)) (i + 1)
  refine ⟨by rw [hfdt], ?_, ?_, ?_⟩
  · rw [hfdt]
    show titleScanFrom lines (i + 1) (min (i + 4) lines.length - (i + 1)) = _
    rw [hscan, htake]
  · intro hall
    rw [hfdt]
    show titleScanFrom lines (i + 1) (min (i + 4) lines.length - (i + 1)) = ""
    rw [hscan, htake]
    have hnone : ((lines.drop (i + 1)).take 3).find? isGoodTitle = none :=
      List.find?_eq_none.mpr (fun x hx => by rw [hall x hx]; exact Bool.false_ne_true)
    rw [hnone]
    rfl
  · intro t
    have h1 : decide (5 < t.length) = decide (6 ≤ t.length) :=
      decide_eq_decide.mpr (by omega)
    have h2 : decide (t.length < 100) = decide (t.length ≤ 99) :=
      decide_eq_decide.mpr (by omega)
    unfold isGoodTitle
    rw [h1, h2]

/-- Claim C8 witness: the scan evaluated on concrete lines whose first weekday
line is at index 1 and whose first acceptable title is two lines later. -/
theorem c8_witness :
    (1 < c8Lines.length ∧ hasWeekday (c8Lines.getD 1 "") = true) ∧
    (findDateTitle c8Lines).1 = c8Lines.getD 1 "" ∧
    (findDateTitle c8Lines).2 = (((c8Lines.drop 2).take 3).find? isGoodTitle).getD "" :=
  ⟨⟨by decide, by decide⟩,
    (c8_thm c8Lines 1 (by decide) (by decide) (by decide)).1,
    (c8_thm c8Lines 1 (by decide) (by decide) (by decide)).2.1⟩

/-- Claim C9: on the spec's example lines — date line, title line, two body
sentences, author line — the extractor returns exactly the expected record, the
body being the two sentences joined by the blank-line separator. -/
theorem c9_thm :
    extractQuote c9Lines "FMT" "2025-06-02" 0 =
      { date := "Monday, June 2, 2025", title := "Stay the Course",
        content := "Keep moving forward with steady effort.\n\nEvery single step you take builds real momentum.",
        author := "Ralph Marston", fetch_date := "2025-06-02" } := by
  decide

end DailyQuoteBot
